import Mathlib

/-!
Verification of the dependency-graph extraction pipeline.

This file gives a shallow embedding of the Python sources
`data_structures.py`, `dependency_gen.py` and `src_analyzer.py` of the
`dependency-graph` repository, and settles the frozen claims about them.

Conventions of the embedding:
* Python strings are Lean `String`; character-level scanning is done on
  `List Char` (the `toList` of the string) so that every function is
  executable and kernel-reducible.
* Python `dict` values are association lists whose keys are unique in
  every corpus we consider; `set` values are lists, with membership the
  only observable.
* Python `None` is `Option.none`; Python string truthiness (empty string
  is falsy) is modelled explicitly where the source relies on it.
-/

/-- `RefType` from `data_structures.py` (lines 7-10). -/
inductive RefType where
  | INHERITANCE
  | COMPOSITION
  | METHOD
deriving DecidableEq

/-- The `.name` attribute of a `RefType` member. -/
def RefType.name : RefType → String
  | RefType.INHERITANCE => "INHERITANCE"
  | RefType.COMPOSITION => "COMPOSITION"
  | RefType.METHOD => "METHOD"

/-- `RefType[s]`: Python enum lookup by member name (`Enum.__getitem__`),
`none` modelling the `KeyError` raised on an unknown name. -/
def RefType.fromName (s : String) : Option RefType :=
  if s = "INHERITANCE" then some RefType.INHERITANCE
  else if s = "COMPOSITION" then some RefType.COMPOSITION
  else if s = "METHOD" then some RefType.METHOD
  else none

/-- `SourceType` from `data_structures.py` (lines 13-21). The regex
payloads of the Python enum members are reflected in `parseval` below. -/
inductive SourceType where
  | HEADER
  | CPP
deriving DecidableEq

/-- The `.name` attribute of a `SourceType` member. -/
def SourceType.name : SourceType → String
  | SourceType.HEADER => "HEADER"
  | SourceType.CPP => "CPP"

/-- `SourceType[s]`: enum lookup by member name. -/
def SourceType.fromName (s : String) : Option SourceType :=
  if s = "HEADER" then some SourceType.HEADER
  else if s = "CPP" then some SourceType.CPP
  else none

/-- `SourceType.parseval` (data_structures.py lines 17-21): tries
`re.fullmatch` of each member's regex against the symbol, in member
order.  `HEADER` carries the alternation of `.h` and `.hpp`, `CPP` the
alternation of `.c`, `.cc`, `.cpp` and `.c++`; a fullmatch of an
alternation of literals is exactly membership in that list. -/
def SourceType.parseval (s : String) : Option SourceType :=
  if s = ".h" || s = ".hpp" then some SourceType.HEADER
  else if s = ".c" || s = ".cc" || s = ".cpp" || s = ".c++" then some SourceType.CPP
  else none

/-- `TypeClassifier` from `data_structures.py` (lines 24-33). -/
inductive TypeClassifier where
  | ENUM
  | STRUCT
  | CLASS
deriving DecidableEq

/-- The `.name` attribute of a `TypeClassifier` member. -/
def TypeClassifier.name : TypeClassifier → String
  | TypeClassifier.ENUM => "ENUM"
  | TypeClassifier.STRUCT => "STRUCT"
  | TypeClassifier.CLASS => "CLASS"

/-- `TypeClassifier[s]`: enum lookup by member name. -/
def TypeClassifier.fromName (s : String) : Option TypeClassifier :=
  if s = "ENUM" then some TypeClassifier.ENUM
  else if s = "STRUCT" then some TypeClassifier.STRUCT
  else if s = "CLASS" then some TypeClassifier.CLASS
  else none

/-- `TypeNode` from `data_structures.py` (lines 36-59).  Its Python
`__eq__` is field-wise equality guarded by an `isinstance` check, so on
two `TypeNode`s it coincides with structural equality; `DecidableEq`
captures exactly that. -/
structure TypeNode where
  name : String
  classifier : TypeClassifier
  sourceName : String
  sourceType : SourceType
deriving DecidableEq

/-- `SourceNode` from `data_structures.py` (lines 62-77): a file key,
`sourceName` the stem and `sourceType` the extension text produced by
`os.path.splitext`.  Its `__eq__` is field-wise equality. -/
structure SourceNode where
  sourceName : String
  sourceType : String
deriving DecidableEq

/-- `CodeNode` from `data_structures.py` (lines 80-96): the body text and
the inheritance clause of one declaration, either possibly `None`. -/
structure CodeNode where
  class_body : Option String
  inheritance_declare : Option String
deriving DecidableEq

/-- `EdgeNode` from `data_structures.py` (lines 123-141), as constructed
by `dep_analysis`: caller, callee and reference kind. -/
structure EdgeNode where
  caller : TypeNode
  callee : TypeNode
  refType : RefType
deriving DecidableEq

/-- Python `\w` on the ASCII identifiers this corpus uses: letters,
digits and underscore. -/
def isWordChar (c : Char) : Bool :=
  c.isAlphanum || c = '_'

/-- `pat` is a leading segment of `l` (list version of a starts-with
test, used to locate substring occurrences). -/
def listStartsWith : List Char → List Char → Bool
  | [], _ => true
  | _ :: _, [] => false
  | a :: as, b :: bs => a = b && listStartsWith as bs

/-- `s.find(pat) >= 0` in Python: `pat` occurs as a contiguous substring
of `s` (the empty pattern occurs in every string). -/
def listContainsSub (pat : List Char) : List Char → Bool
  | [] => pat.isEmpty
  | c :: rest => listStartsWith pat (c :: rest) || listContainsSub pat rest

/-- One candidate position of `re.search` for the pattern
`\b name \b` (no spaces): `pat` starts here and the character right
after the occurrence, if any, is not a word character.  The boundary on
the left is handled by the caller via `prevWord`.  Faithful for the
nonempty identifier names (word characters only) produced by the
declaration scanner. -/
def wholeWordAt (pat s : List Char) : Bool :=
  listStartsWith pat s &&
    (match s.drop pat.length with
     | [] => true
     | c :: _ => !isWordChar c)

/-- Scans `s` left to right; `prevWord` says whether the previous
character was a word character.  True iff `re.findall` of
`\b name \b` (no spaces) on `s` is nonempty, for identifier names. -/
def containsWordFrom (pat : List Char) (prevWord : Bool) : List Char → Bool
  | [] => false
  | c :: rest =>
    (!prevWord && wholeWordAt pat (c :: rest)) || containsWordFrom pat (isWordChar c) rest

/-- Whole-word containment of `name` in `s`, modelling the nonempty
result of `re.findall(fr'\b\x7bt.name\x7d\b', s)` in `symbol_search`. -/
def containsWord (name s : String) : Bool :=
  containsWordFrom name.toList false s.toList

/-- Helper of `splitSemi`: accumulates the current segment (reversed). -/
def splitSemiAux (cur : List Char) : List Char → List (List Char)
  | [] => [cur.reverse]
  | c :: rest =>
    if c = ';' then cur.reverse :: splitSemiAux [] rest
    else splitSemiAux (c :: cur) rest

/-- Python `s.split(';')`: split at every semicolon, keeping empty
segments (the empty string splits to one empty segment). -/
def splitSemi (s : String) : List (List Char) :=
  splitSemiAux [] s.toList

/-- The statement test of `symbol_search` line 145: the statement
contains no opening and no closing parenthesis
(`s.find('(') < 0 and s.find(')') < 0`). -/
def noParens (s : List Char) : Bool :=
  !(s.contains '(') && !(s.contains ')')

/-- The statements of `code.class_body.split(';')` whose text matches
`name` as a whole word (`dependency_gen.py` line 142). -/
def matchingStatements (body : String) (name : String) : List (List Char) :=
  (splitSemi body).filter (fun s => containsWordFrom name.toList false s)

/-- The body branch of `symbol_search` (lines 139-148), for one visible
type name: `none` when the body is absent or falsy (empty) or no
statement matches; otherwise `COMPOSITION` when every matching
statement is parenthesis-free and `METHOD` otherwise. -/
def bodyClassify (code : CodeNode) (name : String) : Option RefType :=
  match code.class_body with
  | none => none
  | some body =>
    if body = "" then none
    else
      let statements := matchingStatements body name
      if statements.isEmpty then none
      else if statements.all noParens then some RefType.COMPOSITION
      else some RefType.METHOD

/-- The inheritance branch of `symbol_search` (lines 134-137), for one
visible type name: the clause is present and truthy (nonempty) and
contains the name as a substring (`str.find >= 0`). -/
def inheritanceMatch (code : CodeNode) (name : String) : Bool :=
  match code.inheritance_declare with
  | none => false
  | some s => !(s = "") && listContainsSub name.toList s.toList

/-- The final `deps` entry of `symbol_search` for one visible type.  In
the source `deps` is a dict: the inheritance loop (lines 134-137) writes
`deps[t] = INHERITANCE` first, and the body loop (lines 139-148) then
writes `deps[t]` again for the same key whenever the body has a matching
statement, overwriting the inheritance entry.  Per type the final value
is therefore the body classification when one exists, else the
inheritance entry, else no entry. -/
def classifyOne (code : CodeNode) (t : TypeNode) : Option RefType :=
  match bodyClassify code t.name with
  | some r => some r
  | none =>
    if inheritanceMatch code t.name then some RefType.INHERITANCE else none

/-- `symbol_search` (dependency_gen.py lines 132-150).  The returned
dict maps each visible type to at most one `RefType`; the entries are
independent across types, so the dict is modelled as the list of final
key/value pairs in input order. -/
def symbol_search (code : CodeNode) (types : List TypeNode) : List (TypeNode × RefType) :=
  types.filterMap (fun t => (classifyOne code t).map (fun r => (t, r)))

/-- Python `assoc.get(k, dfl)` on a dict modelled as an association
list with unique keys: the value at the first matching key, else the
default. -/
def assocGet {κ α : Type} [DecidableEq κ] (assoc : List (κ × α)) (k : κ) (dfl : α) : α :=
  match assoc with
  | [] => dfl
  | (k2, v) :: rest => if k2 = k then v else assocGet rest k dfl

/-- The scan results consumed by `dep_analysis`: `file -> set(includes)`
as produced by `source_proc`. -/
abbrev IncludesMap : Type := List (SourceNode × List SourceNode)

/-- The scan results consumed by `dep_analysis`:
`file -> dict(TypeNode : CodeNode)` as produced by `source_proc`. -/
abbrev DeclaresMap : Type := List (SourceNode × List (TypeNode × CodeNode))

/-- `get_included_types` (dependency_gen.py lines 154-159): the union,
over the files `src` includes, of the types declared in those files;
missing keys default to the empty set / empty dict. -/
def get_included_types (includes : IncludesMap) (declares : DeclaresMap)
    (src : SourceNode) : List TypeNode :=
  (assocGet includes src []).flatMap (fun s => (assocGet declares s []).map Prod.fst)

/-- The node set of `dep_analysis` (line 168): every key of every
per-file declaration dict. -/
def dep_analysis_nodes (declares : DeclaresMap) : List TypeNode :=
  declares.flatMap (fun p => p.2.map Prod.fst)

/-- The edge set of `dep_analysis` (lines 169-176): for each file and
each type declared in it, `symbol_search` of its code against the types
included by that file, one edge per returned dependency.  The Python
`set` is modelled as a list; membership is the only observable used. -/
def dep_analysis_edges (includes : IncludesMap) (declares : DeclaresMap) : List EdgeNode :=
  declares.flatMap (fun p =>
    p.2.flatMap (fun tc =>
      (symbol_search tc.2 (get_included_types includes declares p.1)).map
        (fun dr => EdgeNode.mk tc.1 dr.1 dr.2)))

/-- The loop body of the name check in `verify_data` (dependency_gen.py
lines 181-183): walk the nodes carrying the `typeNames` dict and fail on
a node whose name is already a key.  The source never inserts into
`typeNames` inside the loop, so the accumulator is passed unchanged. -/
def verify_names_loop (typeNames : List (String × TypeNode)) : List TypeNode → Bool
  | [] => true
  | n :: rest =>
    if (typeNames.map Prod.fst).contains n.name then false
    else verify_names_loop typeNames rest

/-- The name-collision check of `verify_data` (lines 181-183): starts
from the empty `typeNames` dict. -/
def verify_names (nodes : List TypeNode) : Bool :=
  verify_names_loop [] nodes

/-- The endpoint check of `verify_data` (lines 185-189): every edge's
caller and callee are members of the node set. -/
def verify_edges (nodes : List TypeNode) (edges : List EdgeNode) : Bool :=
  edges.all (fun e => decide (e.caller ∈ nodes) && decide (e.callee ∈ nodes))

/-- One `os.scandir` entry as seen by `skip`: its path and whether it is
a regular file. -/
structure DirEntry where
  path : String
  is_file : Bool

/-- The characters of the path after the last slash (`os.path.basename`
on POSIX paths). -/
def basenameAux (acc : List Char) : List Char → List Char
  | [] => acc.reverse
  | c :: rest => if c = '/' then basenameAux [] rest else basenameAux (c :: acc) rest

/-- `os.path.basename`, character-list version. -/
def basenameChars (l : List Char) : List Char :=
  basenameAux [] l

/-- The extension part of `os.path.splitext(path)`: the basename's
suffix from its last dot, empty when the basename has no dot or when
every character before that dot is itself a dot (leading-dot files have
no extension). -/
def extOf (path : String) : String :=
  let b := basenameChars path.toList
  let rev := b.reverse
  let afterDotRev := rev.takeWhile (fun c => c ≠ '.')
  if afterDotRev.length = rev.length then ""
  else
    let stem := (rev.drop (afterDotRev.length + 1)).reverse
    if stem.all (fun c => c = '.') then ""
    else String.mk ('.' :: afterDotRev.reverse)

/-- `valid_headers[0]` (dependency_gen.py line 20; the color tag of the
pair is irrelevant to filtering and dropped). -/
def valid_headers : List String := [".h", ".hpp"]

/-- `valid_sources[0]` (dependency_gen.py line 21). -/
def valid_sources : List String := [".c", ".cc", ".cpp"]

/-- `valid_extensions` (dependency_gen.py line 22). -/
def valid_extensions : List String := valid_headers ++ valid_sources

/-- `skip` (dependency_gen.py lines 33-41): skip paths under a `tests`
segment, and regular files whose `splitext` extension is not in
`valid_extensions`. -/
def skip (entry : DirEntry) : Bool :=
  if listContainsSub "/tests/".toList entry.path.toList then true
  else if entry.is_file && !(valid_extensions.contains (extOf entry.path)) then true
  else false

/-- The fragment of JSON exercised by `CustomEncoder` and
`TypeDependencyDecoder`: strings and objects (finite key/value maps,
kept in insertion order as `json.dumps` does). -/
inductive Json where
  | str : String → Json
  | obj : List (String × Json) → Json

/-- The Python values flowing through `json.loads` with
`TypeDependencyDecoder`: JSON strings, reconstructed `TypeNode`s,
reconstructed `EdgeNode`s (whose caller/callee fields are whatever value
the hook produced for them, as `EdgeNode.__init__` does not check their
type), and plain dicts left untouched by the hook. -/
inductive PyVal where
  | str : String → PyVal
  | tn : TypeNode → PyVal
  | edge : PyVal → PyVal → RefType → PyVal
  | dict : List (String × PyVal) → PyVal

/-- `CustomEncoder.default` on a `TypeNode` (data_structures.py line
102): the node-object form, keys in the source's insertion order. -/
def encodeTypeNode (n : TypeNode) : Json :=
  Json.obj [("name", Json.str n.name),
            ("classifier", Json.str (TypeClassifier.name n.classifier)),
            ("sourceName", Json.str n.sourceName),
            ("sourceType", Json.str (SourceType.name n.sourceType))]

/-- `CustomEncoder.default` on an `EdgeNode` (lines 103-106): caller and
callee re-encoded as full nested node objects, `refType` by member
name. -/
def encodeEdgeNode (e : EdgeNode) : Json :=
  Json.obj [("caller", encodeTypeNode e.caller),
            ("callee", encodeTypeNode e.callee),
            ("refType", Json.str (RefType.name e.refType))]

/-- Python `dct[k]` on a decoded JSON object, as an `Option` (the hook
only reads keys it has checked with `in`). -/
def pyDictGet (dct : List (String × PyVal)) (k : String) : Option PyVal :=
  match dct with
  | [] => none
  | (k2, v) :: rest => if k2 = k then some v else pyDictGet rest k

/-- The node branch of `TypeDependencyDecoder.object_hook` (line 117):
`TypeNode(dct['name'], TypeClassifier[dct['classifier']],
dct['sourceName'], SourceType[dct['sourceType']])`.  The enum lookups
raise `KeyError` (modelled `Except.error ()`) whenever the value is not
the name of a member — in particular for any non-string value.  In the
JSON fragment modelled here the `name`/`sourceName` positions of a node
object are always strings, so the catch-all error arm for non-string
values there is never reached on encoder output. -/
def decodeNodeFields : PyVal → PyVal → PyVal → PyVal → Except Unit PyVal
  | PyVal.str nm, PyVal.str c, PyVal.str sn, PyVal.str st =>
    match TypeClassifier.fromName c, SourceType.fromName st with
    | some cl, some sv => Except.ok (PyVal.tn (TypeNode.mk nm cl sn sv))
    | _, _ => Except.error ()
  | _, _, _, _ => Except.error ()

/-- The edge branch of `object_hook` (line 119):
`EdgeNode(dct['caller'], dct['callee'], RefType[dct['refType']])`.
Caller and callee are passed through without any type check, exactly as
in the source; the `refType` enum lookup raises `KeyError` on anything
but a member name. -/
def decodeEdgeFields (cav cev : PyVal) : PyVal → Except Unit PyVal
  | PyVal.str r =>
    match RefType.fromName r with
    | some rv => Except.ok (PyVal.edge cav cev rv)
    | none => Except.error ()
  | _ => Except.error ()

/-- `TypeDependencyDecoder.object_hook` (lines 115-120): the node-key
test comes first, then the edge-key test, and a dict matching neither is
returned unchanged. -/
def objectHook (dct : List (String × PyVal)) : Except Unit PyVal :=
  match pyDictGet dct "name", pyDictGet dct "classifier",
        pyDictGet dct "sourceName", pyDictGet dct "sourceType" with
  | some nmv, some cv, some snv, some stv => decodeNodeFields nmv cv snv stv
  | _, _, _, _ =>
    match pyDictGet dct "caller", pyDictGet dct "callee", pyDictGet dct "refType" with
    | some cav, some cev, some rv => decodeEdgeFields cav cev rv
    | _, _, _ => Except.ok (PyVal.dict dct)

mutual

/-- `json.loads(-, cls=TypeDependencyDecoder)` on the modelled JSON
fragment: the hook is applied to every object bottom-up, innermost
first, as the Python decoder does. -/
def decodeJson : Json → Except Unit PyVal
  | Json.str s => Except.ok (PyVal.str s)
  | Json.obj kvs => Except.bind (decodeEntries kvs) objectHook

/-- Decodes the values of one JSON object in order. -/
def decodeEntries : List (String × Json) → Except Unit (List (String × PyVal))
  | [] => Except.ok []
  | (k, v) :: rest =>
    Except.bind (decodeJson v) (fun pv =>
      Except.map (fun r => (k, pv) :: r) (decodeEntries rest))

end

mutual

/-- `json.dumps(-, cls=CustomEncoder)` on a decoded Python value:
strings and dicts are encoded natively, `TypeNode` and `EdgeNode` via
`CustomEncoder.default`, the latter re-serializing its caller and callee
recursively (lines 104-105). -/
def pyEncode : PyVal → Except Unit Json
  | PyVal.str s => Except.ok (Json.str s)
  | PyVal.tn n => Except.ok (encodeTypeNode n)
  | PyVal.edge ca ce r =>
    Except.bind (pyEncode ca) (fun jca =>
      Except.map (fun jce =>
          Json.obj [("caller", jca), ("callee", jce), ("refType", Json.str (RefType.name r))])
        (pyEncode ce))
  | PyVal.dict kvs => Except.map Json.obj (pyEncodeEntries kvs)

/-- Encodes the values of one dict in order. -/
def pyEncodeEntries : List (String × PyVal) → Except Unit (List (String × Json))
  | [] => Except.ok []
  | (k, v) :: rest =>
    Except.bind (pyEncode v) (fun jv =>
      Except.map (fun r => (k, jv) :: r) (pyEncodeEntries rest))

end

/-- The Python objects an `__eq__` of this code base may be handed:
the two node classes, plain strings, and the two enum kinds that appear
as attribute values. -/
inductive PyObj where
  | tnode : TypeNode → PyObj
  | enode : EdgeNode → PyObj
  | pstr : String → PyObj
  | srcty : SourceType → PyObj
  | refty : RefType → PyObj

/-- `TypeNode.__eq__` (data_structures.py lines 49-56): `False` unless
the other operand is a `TypeNode`, else field-wise comparison. -/
def typeNode_pyeq (a : TypeNode) : PyObj → Bool
  | PyObj.tnode b =>
    a.name = b.name && a.sourceType = b.sourceType
      && a.sourceName = b.sourceName && a.classifier = b.classifier
  | _ => false

/-- Python `==` on an enum member (identity): `False` unless the other
operand is a member of the same enumeration and equal to it. -/
def refType_pyeq (a : RefType) : PyObj → Bool
  | PyObj.refty b => a = b
  | _ => false

/-- `EdgeNode.__eq__` (data_structures.py lines 132-138), verbatim: the
guard accepts only a `TypeNode` operand, and the comparisons then pit
`self.caller` (a `TypeNode`) against `other.sourceName` (a string),
`self.callee` against `other.sourceType` and `self.refType` against
`other.name` — each itself a cross-type Python `==`. -/
def edgeNode_pyeq (e : EdgeNode) : PyObj → Bool
  | PyObj.tnode other =>
    typeNode_pyeq e.caller (PyObj.pstr other.sourceName)
      && typeNode_pyeq e.callee (PyObj.srcty other.sourceType)
      && refType_pyeq e.refType (PyObj.pstr other.name)
  | _ => false

/-- Concrete corpus used to instantiate the universally quantified
theorems below: two header files `A.h` and `B.h`. -/
def exA : SourceNode := SourceNode.mk "A" ".h"

/-- The second file of the concrete corpus. -/
def exB : SourceNode := SourceNode.mk "B" ".h"

/-- A type `Der` declared in `A.h`. -/
def exDer : TypeNode := TypeNode.mk "Der" TypeClassifier.CLASS "A" SourceType.HEADER

/-- A type `Base` declared in `B.h`. -/
def exBase : TypeNode := TypeNode.mk "Base" TypeClassifier.CLASS "B" SourceType.HEADER

/-- The declaration body of `Der`, mentioning `Base` as a member. -/
def exCodeDer : CodeNode := CodeNode.mk (some "Base b") none

/-- The declarations map of the concrete corpus. -/
def exDeclares : DeclaresMap :=
  [(exA, [(exDer, exCodeDer)]), (exB, [(exBase, CodeNode.mk none none)])]

/-- The includes map of the concrete corpus: `A.h` includes `B.h`. -/
def exIncludes : IncludesMap := [(exA, [exB])]

/-- Two distinct nodes sharing the name `Foo` (declared in different
files), the input exhibiting the vacuity of the name-collision check. -/
def exFooA : TypeNode := TypeNode.mk "Foo" TypeClassifier.CLASS "a" SourceType.HEADER

/-- The second `Foo` node, differing from `exFooA` only in its file. -/
def exFooB : TypeNode := TypeNode.mk "Foo" TypeClassifier.CLASS "b" SourceType.HEADER

/-- A declaration whose inheritance clause names `Base` and whose body
also mentions `Base` in a parenthesis-free statement. -/
def ex2code : CodeNode := CodeNode.mk (some "Base x") (some ": public Base")

/-- A visible type named `Base` (its own declaration site is irrelevant
to classification). -/
def ex2base : TypeNode := TypeNode.mk "Base" TypeClassifier.CLASS "Base" SourceType.HEADER

/-- A declaration with an inheritance clause naming `Base` and no body. -/
def ex2wcode : CodeNode := CodeNode.mk none (some ": public Base")

/-- A declaration whose only statement mentions `Base` and carries a
closing parenthesis but no opening one. -/
def ex3code : CodeNode := CodeNode.mk (some "Base)") none

/-- A visible type named `Engine`, for the composition example. -/
def ex3eng : TypeNode := TypeNode.mk "Engine" TypeClassifier.CLASS "E" SourceType.HEADER

/-- A visible type named `Base` declared in a source file, callee of the
single-parenthesis counterexample. -/
def ex3base : TypeNode := TypeNode.mk "Base" TypeClassifier.STRUCT "B3" SourceType.CPP

/-- The unfolded right-hand side of `decodeNodeFields` on four string
fields, for rewriting under hypotheses about the enum lookups. -/
theorem decodeNodeFields_eq (nm c sn st : String) :
    decodeNodeFields (PyVal.str nm) (PyVal.str c) (PyVal.str sn) (PyVal.str st) =
      (match TypeClassifier.fromName c, SourceType.fromName st with
       | some cl, some sv => Except.ok (PyVal.tn (TypeNode.mk nm cl sn sv))
       | _, _ => Except.error ()) := rfl

/-- A lookup hit in an association-list dict means the key/value pair is
in the list and the element is in the value. -/
theorem mem_assocGet_list {κ α : Type} [DecidableEq κ] {assoc : List (κ × List α)} {k : κ}
    {x : α} (h : x ∈ assocGet assoc k []) : ∃ v, (k, v) ∈ assoc ∧ x ∈ v := by
  induction assoc with
  | nil => simp [assocGet] at h
  | cons p rest ih =>
    obtain ⟨k2, v⟩ := p
    by_cases hk : k2 = k
    · subst hk
      simp [assocGet] at h
      exact ⟨v, List.mem_cons_self _ _, h⟩
    · simp [assocGet, hk] at h
      obtain ⟨v2, hv2, hx⟩ := ih h
      exact ⟨v2, List.mem_cons_of_mem _ hv2, hx⟩

/-- Membership in the result of `symbol_search`, unfolded: the type is
among the visible types and its final dict entry is the given kind. -/
theorem symbol_search_mem_iff (code : CodeNode) (types : List TypeNode) (x : TypeNode)
    (r0 : RefType) :
    (x, r0) ∈ symbol_search code types ↔ x ∈ types ∧ classifyOne code x = some r0 := by
  simp only [symbol_search, List.mem_filterMap, Option.map_eq_some']
  constructor
  · rintro ⟨t, ht, r2, hco, heq⟩
    cases heq
    exact ⟨ht, hco⟩
  · rintro ⟨ht, hco⟩
    exact ⟨x, ht, r0, hco, rfl⟩

/-- The body branch never yields `INHERITANCE`: its two outcomes are
`COMPOSITION` and `METHOD`. -/
theorem bodyClassify_not_inheritance {code : CodeNode} {nm : String} {r : RefType}
    (h : bodyClassify code nm = some r) : r ≠ RefType.INHERITANCE := by
  unfold bodyClassify at h
  rcases hb : code.class_body with _ | body <;> rw [hb] at h
  · simp at h
  · dsimp only at h
    split_ifs at h with h1 h2 h3
    · injection h with h4; rw [← h4]; decide
    · injection h with h4; rw [← h4]; decide

/-- Every type visible to a file through its includes is a declared
node of the corpus. -/
theorem mem_get_included_types {includes : IncludesMap} {declares : DeclaresMap}
    {src : SourceNode} {d : TypeNode} (h : d ∈ get_included_types includes declares src) :
    d ∈ dep_analysis_nodes declares := by
  simp only [get_included_types, List.mem_flatMap] at h
  obtain ⟨s, _, hd⟩ := h
  simp only [List.mem_map] at hd
  obtain ⟨tc, htc, rfl⟩ := hd
  obtain ⟨ts, hts, htcts⟩ := mem_assocGet_list htc
  simp only [dep_analysis_nodes, List.mem_flatMap]
  exact ⟨(s, ts), hts, List.mem_map.mpr ⟨tc, htcts, rfl⟩⟩

/-- Enum lookup by name is a retraction of the `name` attribute for
`TypeClassifier`. -/
theorem classifier_fromName_name (cl : TypeClassifier) :
    TypeClassifier.fromName (TypeClassifier.name cl) = some cl := by
  cases cl <;> rfl

/-- Enum lookup by name is a retraction of the `name` attribute for
`SourceType`. -/
theorem sourceType_fromName_name (sv : SourceType) :
    SourceType.fromName (SourceType.name sv) = some sv := by
  cases sv <;> rfl

/-- Enum lookup by name is a retraction of the `name` attribute for
`RefType`. -/
theorem refType_fromName_name (r : RefType) :
    RefType.fromName (RefType.name r) = some r := by
  cases r <;> rfl

/-- Decoding the encoder's node object reconstructs the node exactly. -/
theorem decode_encode_node (n : TypeNode) :
    decodeJson (encodeTypeNode n) = Except.ok (PyVal.tn n) := by
  obtain ⟨nm, cl, sn, sv⟩ := n
  cases cl <;> cases sv <;> rfl

/-- Decoding the encoder's edge object reconstructs an `EdgeNode` whose
caller and callee are the reconstructed nodes. -/
theorem decode_encode_edge (e : EdgeNode) :
    decodeJson (encodeEdgeNode e) =
      Except.ok (PyVal.edge (PyVal.tn e.caller) (PyVal.tn e.callee) e.refType) := by
  obtain ⟨⟨nm1, cl1, sn1, sv1⟩, ⟨nm2, cl2, sn2, sv2⟩, r⟩ := e
  cases cl1 <;> cases sv1 <;> cases cl2 <;> cases sv2 <;> cases r <;> rfl

/-- C1: the claim says that if two distinct nodes have equal names,
`verify_data` fails fatally with the name-collision assertion.  The code
cannot do this: the loop of lines 181-183 never inserts into the
`typeNames` dict it tests against (although its assertion message indexes
`typeNames[n.name]`, presupposing insertion), so the check passes on
every node list — in particular on two distinct nodes both named
`Foo`. -/
theorem c1_name_collision_check_vacuous :
    (∀ nodes : List TypeNode, verify_names nodes = true) ∧
    exFooA ≠ exFooB ∧ exFooA.name = exFooB.name ∧
    verify_names [exFooA, exFooB] = true := by
  refine ⟨?_, by decide, by decide, by decide⟩
  intro nodes
  induction nodes with
  | nil => rfl
  | cons n rest ih => simpa [verify_names, verify_names_loop] using ih

/-- C2, counterexample: a declaration whose inheritance clause contains
`Base` and whose body also matches `Base` yields only the Composition
entry — the body loop overwrites the Inheritance entry in the `deps`
dict, so no Inheritance edge coexists with it and the clause does not
yield Inheritance regardless of body content, contrary to the claim. -/
theorem c2_counterexample :
    inheritanceMatch ex2code "Base" = true ∧
    symbol_search ex2code [ex2base] = [(ex2base, RefType.COMPOSITION)] ∧
    (ex2base, RefType.INHERITANCE) ∉ symbol_search ex2code [ex2base] := by
  refine ⟨by decide, by decide, by decide⟩

/-- C2, amended: when the inheritance clause contains a visible callee's
name, the classifier yields Inheritance for that callee exactly when no
body statement matches it; when the body matches, the body-derived kind
(never Inheritance) is the sole entry for that callee, replacing the
Inheritance one. -/
theorem c2_amended_inheritance_overwritten (code : CodeNode) (t : TypeNode)
    (types : List TypeNode) (ht : t ∈ types)
    (hinh : inheritanceMatch code t.name = true) :
    (bodyClassify code t.name = none →
      (t, RefType.INHERITANCE) ∈ symbol_search code types) ∧
    ∀ r, bodyClassify code t.name = some r →
      r ≠ RefType.INHERITANCE ∧ (t, r) ∈ symbol_search code types ∧
      (t, RefType.INHERITANCE) ∉ symbol_search code types := by
  constructor
  · intro hb
    rw [symbol_search_mem_iff]
    exact ⟨ht, by simp [classifyOne, hb, hinh]⟩
  · intro r hb
    refine ⟨bodyClassify_not_inheritance hb, ?_, ?_⟩
    · rw [symbol_search_mem_iff]
      exact ⟨ht, by simp [classifyOne, hb]⟩
    · intro hmem
      rw [symbol_search_mem_iff] at hmem
      have h2 := hmem.2
      simp [classifyOne, hb] at h2
      exact bodyClassify_not_inheritance hb h2

/-- C2, witness: on a declaration whose clause names `Base` and whose
body is absent, the amended statement yields the Inheritance entry. -/
theorem c2_amended_witness :
    (ex2base, RefType.INHERITANCE) ∈ symbol_search ex2wcode [ex2base] :=
  (c2_amended_inheritance_overwritten ex2wcode ex2base [ex2base]
    (by decide) (by decide)).1 (by decide)

/-- C3, counterexample: the body `Base)` has exactly one matching
statement, which does not contain both an opening and a closing
parenthesis (it has only `)`), yet the classifier returns MethodUse, not
the Composition the claim requires — the code tests each parenthesis
separately, not their conjunction. -/
theorem c3_counterexample :
    matchingStatements "Base)" "Base" = ["Base)".toList] ∧
    (("Base)".toList.contains '(') && ("Base)".toList.contains ')')) = false ∧
    symbol_search ex3code [ex3base] = [(ex3base, RefType.METHOD)] := by
  refine ⟨by decide, by decide, by decide⟩

/-- C3, amended: with a truthy body and at least one matching statement,
the classifier returns Composition exactly when every matching statement
contains neither `(` nor `)`, and MethodUse when some matching statement
contains `(` or `)` (not necessarily both). -/
theorem c3_amended_individual_paren_test (body : String) (inh : Option String)
    (t : TypeNode) (types : List TypeNode) (ht : t ∈ types)
    (hb : ¬ body = "") (hm : ¬ matchingStatements body t.name = []) :
    (t, if (matchingStatements body t.name).all noParens then RefType.COMPOSITION
        else RefType.METHOD) ∈ symbol_search (CodeNode.mk (some body) inh) types := by
  rw [symbol_search_mem_iff]
  refine ⟨ht, ?_⟩
  have hie : (matchingStatements body t.name).isEmpty = false := by
    rcases hms : matchingStatements body t.name with _ | ⟨a, l⟩
    · exact absurd hms hm
    · rfl
  cases hall : (matchingStatements body t.name).all noParens <;>
    simp [classifyOne, bodyClassify, hb, hie, hall]

/-- C3, witness: the body `Engine x` with visible type `Engine` has one
matching parenthesis-free statement, and the amended statement yields
its Composition entry. -/
theorem c3_amended_witness :
    (ex3eng, if (matchingStatements "Engine x" ex3eng.name).all noParens
             then RefType.COMPOSITION else RefType.METHOD)
      ∈ symbol_search (CodeNode.mk (some "Engine x") none) [ex3eng] :=
  c3_amended_individual_paren_test "Engine x" none ex3eng [ex3eng]
    (by decide) (by decide) (by decide)

/-- C4: the claim says a regular file ending in `.c++` is kept.  The
discoverer skips it: `valid_extensions` (line 22) holds only `.h`,
`.hpp`, `.c`, `.cc`, `.cpp`, while the code base's own
`SourceType.parseval` accepts `.c++` as a CPP source — the filter and
the data model disagree, and the spec follows the data model. -/
theorem c4_cpp_plusplus_extension_skipped :
    skip (DirEntry.mk "src/a.c++" true) = true ∧
    valid_extensions.contains ".c++" = false ∧
    SourceType.parseval ".c++" = some SourceType.CPP := by
  refine ⟨by decide, by decide, by decide⟩

/-- C5: re-encoding the decoded form of a node's JSON encoding yields
the identical encoding, and likewise for a single edge under the
full nested-node-object schema of `CustomEncoder` and
`TypeDependencyDecoder`. -/
theorem c5_encode_decode_encode_roundtrip (n : TypeNode) (e : EdgeNode) :
    Except.bind (decodeJson (encodeTypeNode n)) pyEncode = Except.ok (encodeTypeNode n) ∧
    Except.bind (decodeJson (encodeEdgeNode e)) pyEncode = Except.ok (encodeEdgeNode e) := by
  constructor
  · rw [decode_encode_node]
    rfl
  · rw [decode_encode_edge]
    rfl

/-- C6: every edge produced by `dep_analysis` has both endpoints in the
node set produced by the same run — the caller is one of the declared
types it iterates over, and the callee comes from `get_included_types`,
itself a union of declared types. -/
theorem c6_edge_endpoints_in_nodes (includes : IncludesMap) (declares : DeclaresMap) :
    ∀ e ∈ dep_analysis_edges includes declares,
      e.caller ∈ dep_analysis_nodes declares ∧ e.callee ∈ dep_analysis_nodes declares := by
  intro e he
  simp only [dep_analysis_edges, List.mem_flatMap, List.mem_map] at he
  obtain ⟨p, hp, tc, htc, dr, hdr, heq⟩ := he
  obtain ⟨t0, code0⟩ := tc
  obtain ⟨d0, r0⟩ := dr
  subst heq
  constructor
  · simp only [dep_analysis_nodes, List.mem_flatMap]
    exact ⟨p, hp, List.mem_map.mpr ⟨(t0, code0), htc, rfl⟩⟩
  · exact mem_get_included_types ((symbol_search_mem_iff _ _ _ _).mp hdr).1

/-- C6, witness: in the concrete corpus, the edge `Der -> Base` is
produced and both endpoints are declared nodes. -/
theorem c6_witness :
    (EdgeNode.mk exDer exBase RefType.COMPOSITION).caller ∈ dep_analysis_nodes exDeclares ∧
    (EdgeNode.mk exDer exBase RefType.COMPOSITION).callee ∈ dep_analysis_nodes exDeclares :=
  c6_edge_endpoints_in_nodes exIncludes exDeclares
    (EdgeNode.mk exDer exBase RefType.COMPOSITION) (by decide)

/-- C7: if no file declaring `t` reaches `d` through its includes, then
`dep_analysis` produces no edge from `t` to `d`, whatever `d`'s textual
occurrences — candidates are drawn from `get_included_types` only. -/
theorem c7_visibility_bounds_edges (includes : IncludesMap) (declares : DeclaresMap)
    (t d : TypeNode) (r : RefType)
    (h : ∀ p ∈ declares, t ∈ p.2.map Prod.fst →
      d ∉ get_included_types includes declares p.1) :
    EdgeNode.mk t d r ∉ dep_analysis_edges includes declares := by
  intro hmem
  simp only [dep_analysis_edges, List.mem_flatMap, List.mem_map] at hmem
  obtain ⟨p, hp, tc, htc, dr, hdr, heq⟩ := hmem
  obtain ⟨t0, code0⟩ := tc
  obtain ⟨d0, r0⟩ := dr
  simp only [EdgeNode.mk.injEq] at heq
  obtain ⟨he1, he2, he3⟩ := heq
  exact h p hp (List.mem_map.mpr ⟨(t0, code0), htc, he1⟩)
    (he2 ▸ ((symbol_search_mem_iff _ _ _ _).mp hdr).1)

/-- C7, witness: with the includes map emptied, the same corpus yields
no `Der -> Base` edge even though `Base` occurs textually in `Der`'s
body. -/
theorem c7_witness :
    EdgeNode.mk exDer exBase RefType.COMPOSITION ∉ dep_analysis_edges [] exDeclares :=
  c7_visibility_bounds_edges [] exDeclares exDer exBase RefType.COMPOSITION (by decide)

/-- C9: `EdgeNode.__eq__` first requires the other operand to be a
`TypeNode`, so comparing any two edge values — identical field values
included — returns `False`; edge equality is never reflexive. -/
theorem c9_edge_eq_always_false (e1 e2 : EdgeNode) :
    edgeNode_pyeq e1 (PyObj.enode e2) = false := rfl

/-- C10: decoding a node object fails exactly when the `classifier` or
`sourceType` string is not a member name of its enumeration, and
succeeds by enum-name lookup otherwise; an edge object with an unknown
`refType` name likewise fails, and with a known name reconstructs the
edge from the decoded caller and callee values. -/
theorem c10_decoder_enum_name_lookup (nm c sn st : String) :
    ((TypeClassifier.fromName c = none ∨ SourceType.fromName st = none) →
      decodeJson (Json.obj [("name", Json.str nm), ("classifier", Json.str c),
        ("sourceName", Json.str sn), ("sourceType", Json.str st)]) = Except.error ()) ∧
    (∀ cl sv, TypeClassifier.fromName c = some cl → SourceType.fromName st = some sv →
      decodeJson (Json.obj [("name", Json.str nm), ("classifier", Json.str c),
        ("sourceName", Json.str sn), ("sourceType", Json.str st)]) =
        Except.ok (PyVal.tn (TypeNode.mk nm cl sn sv))) ∧
    (∀ (j1 j2 : Json) (rs : String), RefType.fromName rs = none →
      decodeJson (Json.obj [("caller", j1), ("callee", j2), ("refType", Json.str rs)]) =
        Except.error ()) ∧
    (∀ (j1 j2 : Json) (v1 v2 : PyVal) (rs : String) (rv : RefType),
      RefType.fromName rs = some rv → decodeJson j1 = Except.ok v1 →
      decodeJson j2 = Except.ok v2 →
      decodeJson (Json.obj [("caller", j1), ("callee", j2), ("refType", Json.str rs)]) =
        Except.ok (PyVal.edge v1 v2 rv)) := by
  refine ⟨?_, ?_, ?_, ?_⟩
  · intro h
    show decodeNodeFields (PyVal.str nm) (PyVal.str c) (PyVal.str sn) (PyVal.str st) =
      Except.error ()
    rw [decodeNodeFields_eq]
    rcases hc : TypeClassifier.fromName c with _ | cl <;>
      rcases hs : SourceType.fromName st with _ | sv <;>
      simp_all
  · intro cl sv hc hs
    show decodeNodeFields (PyVal.str nm) (PyVal.str c) (PyVal.str sn) (PyVal.str st) =
      Except.ok (PyVal.tn (TypeNode.mk nm cl sn sv))
    rw [decodeNodeFields_eq, hc, hs]
  · intro j1 j2 rs hrs
    rcases hd1 : decodeJson j1 with e1 | v1
    · simp [decodeJson, decodeEntries, hd1, Except.bind]
    · rcases hd2 : decodeJson j2 with e2 | v2
      · simp [decodeJson, decodeEntries, hd1, hd2, Except.bind, Except.map]
      · simp [decodeJson, decodeEntries, hd1, hd2, Except.bind, Except.map,
          objectHook, pyDictGet, decodeEdgeFields, hrs]
  · intro j1 j2 v1 v2 rs rv hrs h1 h2
    simp [decodeJson, decodeEntries, h1, h2, Except.bind, Except.map,
      objectHook, pyDictGet, decodeEdgeFields, hrs]

/-- C10, witness: an unknown classifier name makes the decoder fail, by
the first conjunct at a concrete node object. -/
theorem c10_witness :
    decodeJson (Json.obj [("name", Json.str "N"), ("classifier", Json.str "CLAZZ"),
      ("sourceName", Json.str "S"), ("sourceType", Json.str "HEADER")]) =
      Except.error () :=
  (c10_decoder_enum_name_lookup "N" "CLAZZ" "S" "HEADER").1 (Or.inl rfl)
